import Mathlib

/-!
Verification of the travel-agency booking core: a shallow embedding of the
server handlers (bookings.ts, payments.ts, expenses.ts, reports.ts) over an
explicit database state.  Monetary values are modelled as rationals (the
database columns are numeric with two-decimal scale); dates and timestamps
are modelled as natural numbers; table rows are lists.  Each handler is a
pure function from the database state (plus the inputs the runtime supplies:
the serial id, the clock) to an Except value, mirroring the thrown errors of
the source.
-/

namespace TravelAgency

/-- Room types of hotel line items (roomTypeSchema in schema.ts). -/
inductive RoomType
  | single
  | double
  | triple
  | quad
deriving DecidableEq, BEq

/-- Meal plans of hotel line items (mealPlanSchema in schema.ts). -/
inductive MealPlan
  | no_meal
  | breakfast
  | halfboard
  | fullboard
deriving DecidableEq, BEq

/-- Booking status enum (bookingStatusSchema in schema.ts). -/
inductive BookingStatus
  | draft
  | confirmed
  | cancelled
  | completed
deriving DecidableEq, BEq

/-- Payment status enum (paymentStatusSchema in schema.ts; the middle value
is written partially-paid there). -/
inductive PaymentStatus
  | pending
  | partpaid
  | paid
deriving DecidableEq, BEq

/-- Currency enum (currencySchema in schema.ts): SAR is the base currency. -/
inductive Currency
  | SAR
  | USD
  | IDR
deriving DecidableEq, BEq

/-- A row of customersTable; only the columns the core reads are kept. -/
structure Customer where
  id : Nat
  name : String := ""
deriving DecidableEq, BEq

/-- A row of usersTable; only the id is read by the booking core. -/
structure User where
  id : Nat
deriving DecidableEq, BEq

/-- A row of hotelsTable: master pricing data for hotel line items. -/
structure Hotel where
  id : Nat
  name : String := ""
  location : String := ""
  cost_price : Rat
  selling_price_percentage : Rat
deriving DecidableEq, BEq

/-- A row of servicesTable: master pricing data for service line items. -/
structure Service where
  id : Nat
  name : String := ""
  cost_price : Rat
  selling_price_percentage : Rat
deriving DecidableEq, BEq

/-- A row of bookingsTable. -/
structure BookingRow where
  id : Nat
  customer_id : Nat
  booking_number : String
  total_cost_price : Rat
  total_selling_price : Rat
  status : BookingStatus
  payment_status : PaymentStatus
  created_by : Nat
  created_at : Nat
  updated_at : Nat
deriving DecidableEq, BEq

/-- A row of hotelBookingDetailsTable (the serial id column is not read by
any handler under verification and is omitted). -/
structure HotelBookingDetailRow where
  booking_id : Nat
  hotel_id : Nat
  room_type : RoomType
  meal_plan : MealPlan
  check_in_date : Nat
  check_out_date : Nat
  number_of_rooms : Int
  cost_price : Rat
  selling_price : Rat
deriving DecidableEq, BEq

/-- A row of serviceBookingDetailsTable. -/
structure ServiceBookingDetailRow where
  booking_id : Nat
  service_id : Nat
  quantity : Int
  cost_price : Rat
  selling_price : Rat
deriving DecidableEq, BEq

/-- A row of paymentsTable. -/
structure PaymentRow where
  booking_id : Nat
  amount : Rat
  currency : Currency
  amount_in_sar : Rat
  payment_date : Nat := 0
  notes : Option String := none
  created_by : Nat
deriving DecidableEq, BEq

/-- A row of expensesTable. -/
structure ExpenseRow where
  booking_id : Nat
  expense_name : String := ""
  amount : Rat
  created_by : Nat
deriving DecidableEq, BEq

/-- A row of currencyExchangeRatesTable: an ordered currency pair and its
rate. -/
structure ExchangeRateRow where
  from_currency : Currency
  to_currency : Currency
  rate : Rat
deriving DecidableEq, BEq

/-- The database state: one list per table the core touches. -/
structure DB where
  customers : List Customer := []
  users : List User := []
  hotels : List Hotel := []
  services : List Service := []
  bookings : List BookingRow := []
  hotelDetails : List HotelBookingDetailRow := []
  serviceDetails : List ServiceBookingDetailRow := []
  payments : List PaymentRow := []
  expenses : List ExpenseRow := []
  rates : List ExchangeRateRow := []
deriving DecidableEq, BEq

/-- One hotel line of a createBooking request (createBookingInputSchema). -/
structure HotelBookingRequest where
  hotel_id : Nat
  room_type : RoomType
  meal_plan : MealPlan
  check_in_date : Nat
  check_out_date : Nat
  number_of_rooms : Int
deriving DecidableEq, BEq

/-- One service line of a createBooking request (createBookingInputSchema). -/
structure ServiceRequest where
  service_id : Nat
  quantity : Int
deriving DecidableEq, BEq

/-- The createBooking input (createBookingInputSchema in schema.ts). -/
structure CreateBookingInput where
  customer_id : Nat
  hotel_bookings : List HotelBookingRequest
  services : List ServiceRequest
deriving DecidableEq, BEq

/-- Mirror of a select ... where eq(customersTable.id, id) followed by
taking the first row. -/
def findCustomer (st : DB) (id : Nat) : Option Customer :=
  st.customers.find? (fun c => c.id == id)

/-- Mirror of the users lookup by id. -/
def findUser (st : DB) (id : Nat) : Option User :=
  st.users.find? (fun u => u.id == id)

/-- Mirror of the hotels lookup by id. -/
def findHotel (st : DB) (id : Nat) : Option Hotel :=
  st.hotels.find? (fun h => h.id == id)

/-- Mirror of the services lookup by id. -/
def findService (st : DB) (id : Nat) : Option Service :=
  st.services.find? (fun s => s.id == id)

/-- Mirror of the bookings lookup by id. -/
def findBooking (st : DB) (id : Nat) : Option BookingRow :=
  st.bookings.find? (fun b => b.id == id)

/-- Mirror of the exchange-rate lookup for the ordered pair (f, t) in
createPayment: where(and(eq(from_currency, f), eq(to_currency, t))). -/
def findRate (st : DB) (f t : Currency) : Option ExchangeRateRow :=
  st.rates.find? (fun r => r.from_currency == f && r.to_currency == t)

/-- Per-line hotel cost in createBooking:
costPrice = parseFloat(hotelData.cost_price) * hotelBooking.number_of_rooms.
The number of nights plays no role. -/
def hotelLineCost (hotelData : Hotel) (hb : HotelBookingRequest) : Rat :=
  hotelData.cost_price * (hb.number_of_rooms : Rat)

/-- Per-line hotel selling price in createBooking:
sellingPrice = costPrice * (1 + selling_price_percentage / 100). -/
def hotelLineSelling (hotelData : Hotel) (hb : HotelBookingRequest) : Rat :=
  hotelLineCost hotelData hb * (1 + hotelData.selling_price_percentage / 100)

/-- Per-line service cost in createBooking:
costPrice = parseFloat(serviceData.cost_price) * serviceBooking.quantity. -/
def serviceLineCost (serviceData : Service) (sb : ServiceRequest) : Rat :=
  serviceData.cost_price * (sb.quantity : Rat)

/-- Per-line service selling price in createBooking. -/
def serviceLineSelling (serviceData : Service) (sb : ServiceRequest) : Rat :=
  serviceLineCost serviceData sb * (1 + serviceData.selling_price_percentage / 100)

/-- One iteration of the hotel totals loop of createBooking: the hotel is
re-fetched; a missing hotel contributes nothing (the if-guard on the result
length). The accumulator is the pair (totalCostPrice, totalSellingPrice). -/
def hotelStep (st : DB) (acc : Rat × Rat) (hb : HotelBookingRequest) : Rat × Rat :=
  match findHotel st hb.hotel_id with
  | some hotelData =>
      (acc.1 + hotelLineCost hotelData hb, acc.2 + hotelLineSelling hotelData hb)
  | none => acc

/-- One iteration of the service totals loop of createBooking. -/
def serviceStep (st : DB) (acc : Rat × Rat) (sb : ServiceRequest) : Rat × Rat :=
  match findService st sb.service_id with
  | some serviceData =>
      (acc.1 + serviceLineCost serviceData sb, acc.2 + serviceLineSelling serviceData sb)
  | none => acc

/-- The two accumulation loops of createBooking: hotels first, then services,
starting from totalCostPrice = 0, totalSellingPrice = 0. -/
def bookingTotals (st : DB) (input : CreateBookingInput) : Rat × Rat :=
  input.services.foldl (serviceStep st) (input.hotel_bookings.foldl (hotelStep st) (0, 0))

/-- The booking row inserted by createBooking: booking_number is the BK
prefix plus the clock value (Date.now()), status draft, payment_status
pending, totals from the two loops. newId stands for the serial id the
insert returns. -/
def newBookingRow (st : DB) (input : CreateBookingInput) (userId newId now : Nat) : BookingRow :=
  { id := newId
    customer_id := input.customer_id
    booking_number := "BK" ++ toString now
    total_cost_price := (bookingTotals st input).1
    total_selling_price := (bookingTotals st input).2
    status := BookingStatus.draft
    payment_status := PaymentStatus.pending
    created_by := userId
    created_at := now
    updated_at := now }

/-- The hotel detail row createBooking inserts for a line whose hotel
exists, with the same cost and selling formulas as the totals loop. -/
def hotelDetailRow (bid : Nat) (hb : HotelBookingRequest) (hotelData : Hotel) :
    HotelBookingDetailRow :=
  { booking_id := bid
    hotel_id := hb.hotel_id
    room_type := hb.room_type
    meal_plan := hb.meal_plan
    check_in_date := hb.check_in_date
    check_out_date := hb.check_out_date
    number_of_rooms := hb.number_of_rooms
    cost_price := hotelLineCost hotelData hb
    selling_price := hotelLineSelling hotelData hb }

/-- The service detail row createBooking inserts for a line whose service
exists. -/
def serviceDetailRow (bid : Nat) (sb : ServiceRequest) (serviceData : Service) :
    ServiceBookingDetailRow :=
  { booking_id := bid
    service_id := sb.service_id
    quantity := sb.quantity
    cost_price := serviceLineCost serviceData sb
    selling_price := serviceLineSelling serviceData sb }

/-- The hotel detail rows of the insert loop: one row per request line whose
hotel is found; a missing hotel is silently skipped (the if-guard in the
loop body). -/
def hotelDetailRows (st : DB) (bid : Nat) (lines : List HotelBookingRequest) :
    List HotelBookingDetailRow :=
  lines.filterMap fun hb => (findHotel st hb.hotel_id).map (hotelDetailRow bid hb)

/-- The service detail rows of the insert loop. -/
def serviceDetailRows (st : DB) (bid : Nat) (lines : List ServiceRequest) :
    List ServiceBookingDetailRow :=
  lines.filterMap fun sb => (findService st sb.service_id).map (serviceDetailRow bid sb)

/-- One database insert createBooking performs. Each insert of the source is
a separate await with no surrounding transaction, so the inserts are
modelled as a list of independent operations applied in order. -/
inductive DbOp
  | insertBooking : BookingRow → DbOp
  | insertHotelDetail : HotelBookingDetailRow → DbOp
  | insertServiceDetail : ServiceBookingDetailRow → DbOp
deriving DecidableEq, BEq

/-- Effect of one insert on the database state. -/
def applyOp (st : DB) : DbOp → DB
  | DbOp.insertBooking b => { st with bookings := st.bookings ++ [b] }
  | DbOp.insertHotelDetail d => { st with hotelDetails := st.hotelDetails ++ [d] }
  | DbOp.insertServiceDetail d => { st with serviceDetails := st.serviceDetails ++ [d] }

/-- Applies a list of inserts in order. -/
def applyOps (st : DB) (ops : List DbOp) : DB :=
  ops.foldl applyOp st

/-- The errors createBooking throws. -/
inductive CreateBookingError
  | customerNotFound
  | userNotFound
  | hotelNotFound
  | serviceNotFound
deriving DecidableEq, BEq

/-- The full insert sequence of a successful createBooking call: the
booking row first, then the hotel detail rows, then the service detail
rows. -/
def buildOps (st : DB) (input : CreateBookingInput) (userId newId now : Nat) : List DbOp :=
  DbOp.insertBooking (newBookingRow st input userId newId now)
    :: ((hotelDetailRows st newId input.hotel_bookings).map DbOp.insertHotelDetail
        ++ (serviceDetailRows st newId input.services).map DbOp.insertServiceDetail)

/-- Validation phase and insert sequence of createBooking (bookings.ts).
The checks run in source order: customer, user, then the hotels check which
queries only hotelIds[0] (on an empty hotel list the undefined id is bound
as SQL null, the query returns no rows, and the handler throws Hotel not
found), then, only when the services array is nonempty, the services check
which queries only serviceIds[0]. Hotels and services beyond the first are
never existence-checked. No date-ordering or count-positivity check exists
in the handler. All inserts come after every check. -/
def createBookingOps (st : DB) (input : CreateBookingInput) (userId newId now : Nat) :
    Except CreateBookingError (List DbOp) :=
  match findCustomer st input.customer_id with
  | none => Except.error CreateBookingError.customerNotFound
  | some _ =>
    match findUser st userId with
    | none => Except.error CreateBookingError.userNotFound
    | some _ =>
      match (input.hotel_bookings.map (fun hb => hb.hotel_id)).head?.bind (findHotel st) with
      | none => Except.error CreateBookingError.hotelNotFound
      | some _ =>
        match input.services with
        | [] => Except.ok (buildOps st input userId newId now)
        | sb :: _ =>
          match findService st sb.service_id with
          | none => Except.error CreateBookingError.serviceNotFound
          | some _ => Except.ok (buildOps st input userId newId now)

/-- createBooking: on success every insert of the sequence is applied; on a
validation failure nothing is inserted (all selects precede the first
insert in the source). -/
def createBooking (st : DB) (input : CreateBookingInput) (userId newId now : Nat) :
    Except CreateBookingError DB :=
  (createBookingOps st input userId newId now).map (applyOps st)

/-- updateBookingStatus (bookings.ts): sets status and updated_at on the
matching row and throws Booking not found when no row matches. No other
column of the booking row is written. -/
def updateBookingStatus (st : DB) (id : Nat) (status : BookingStatus) (now : Nat) :
    Except String DB :=
  if st.bookings.any (fun b => b.id == id) then
    Except.ok { st with bookings := st.bookings.map fun b =>
      if b.id == id then { b with status := status, updated_at := now } else b }
  else Except.error "Booking not found"

/-- The errors createPayment throws. rateNotFound carries the two
currencies of the message Exchange rate not found for FROM to SAR. -/
inductive PaymentError
  | bookingNotFound
  | rateNotFound : Currency → Currency → PaymentError
deriving DecidableEq, BEq

/-- The createPayment input (createPaymentInputSchema in schema.ts). -/
structure CreatePaymentInput where
  booking_id : Nat
  amount : Rat
  currency : Currency
  notes : Option String := none
deriving DecidableEq, BEq

/-- The conversion block of createPayment: amountInSar starts as the raw
amount; only when the currency differs from SAR is the exchange-rate row
for the ordered pair (currency, SAR) fetched, and a missing row throws. -/
def convertToSar (st : DB) (amount : Rat) (currency : Currency) : Except PaymentError Rat :=
  if currency = Currency.SAR then Except.ok amount
  else
    match findRate st currency Currency.SAR with
    | none => Except.error (PaymentError.rateNotFound currency Currency.SAR)
    | some exchangeRate => Except.ok (amount * exchangeRate.rate)

/-- createPayment (payments.ts): verifies the booking exists, converts the
amount to SAR, and appends one payment row. The bookings table is not
written. -/
def createPayment (st : DB) (input : CreatePaymentInput) (userId : Nat) :
    Except PaymentError (DB × PaymentRow) :=
  match findBooking st input.booking_id with
  | none => Except.error PaymentError.bookingNotFound
  | some _ =>
    match convertToSar st input.amount input.currency with
    | Except.error e => Except.error e
    | Except.ok amountInSar =>
      let p : PaymentRow :=
        { booking_id := input.booking_id
          amount := input.amount
          currency := input.currency
          amount_in_sar := amountInSar
          notes := input.notes
          created_by := userId }
      Except.ok ({ st with payments := st.payments ++ [p] }, p)

/-- The createExpense input (createExpenseInputSchema in schema.ts). -/
structure CreateExpenseInput where
  booking_id : Nat
  expense_name : String := ""
  amount : Rat
deriving DecidableEq, BEq

/-- createExpense (expenses.ts): verifies the booking exists and appends
one expense row; the bookings table is not written. -/
def createExpense (st : DB) (input : CreateExpenseInput) (userId : Nat) :
    Except String (DB × ExpenseRow) :=
  if st.bookings.any (fun b => b.id == input.booking_id) then
    let e : ExpenseRow :=
      { booking_id := input.booking_id
        expense_name := input.expense_name
        amount := input.amount
        created_by := userId }
    Except.ok ({ st with expenses := st.expenses ++ [e] }, e)
  else Except.error "Booking not found"

/-- Insertion step of the descending sort standing for ORDER BY key DESC. -/
def insertDescBy (key : α → Nat) (a : α) : List α → List α
  | [] => [a]
  | b :: l => if key b ≤ key a then a :: b :: l else b :: insertDescBy key a l

/-- Descending sort by a natural-number key, standing for ORDER BY key DESC
(desc(bookingsTable.created_at) in reports.ts). -/
def sortDescBy (key : α → Nat) : List α → List α
  | [] => []
  | a :: l => insertDescBy key a (sortDescBy key l)

/-- SUM(payments.amount_in_sar) grouped per booking, with COALESCE to 0: the
paid_amount aggregate of getOutstandingInvoices. -/
def paidTotal (st : DB) (bid : Nat) : Rat :=
  ((st.payments.filter (fun p => p.booking_id == bid)).map
    (fun p => p.amount_in_sar)).sum

/-- SUM(expenses.amount) grouped per booking, with COALESCE to 0: the
total_expenses aggregate of getProfitLossReport. -/
def sumExpenses (st : DB) (bid : Nat) : Rat :=
  ((st.expenses.filter (fun e => e.booking_id == bid)).map
    (fun e => e.amount)).sum

/-- The optional creation-date window of getProfitLossReport: gte startDate
when given and lte endDate when given, both inclusive. -/
def inWindow (startDate endDate : Option Nat) (t : Nat) : Bool :=
  (match startDate with
   | some s => decide (s ≤ t)
   | none => true)
  && (match endDate with
      | some e => decide (t ≤ e)
      | none => true)

/-- One row of the profit/loss report (profitLossReportSchema). -/
structure ProfitLossRow where
  booking_id : Nat
  booking_number : String
  customer_name : String
  total_selling_price : Rat
  total_cost_price : Rat
  total_expenses : Rat
  profit : Rat
  created_at : Nat
deriving DecidableEq, BEq

/-- getProfitLossReport (reports.ts): bookings inner-joined with customers,
left-joined and grouped with expenses, filtered by the optional inclusive
creation-date window, ordered by created_at descending; profit is computed
in the mapping step as selling minus cost minus expenses. -/
def getProfitLossReport (st : DB) (startDate endDate : Option Nat) : List ProfitLossRow :=
  sortDescBy (fun r => r.created_at)
    (st.bookings.filterMap fun b =>
      (findCustomer st b.customer_id).bind fun c =>
        if inWindow startDate endDate b.created_at then
          some { booking_id := b.id
                 booking_number := b.booking_number
                 customer_name := c.name
                 total_selling_price := b.total_selling_price
                 total_cost_price := b.total_cost_price
                 total_expenses := sumExpenses st b.id
                 profit := b.total_selling_price - b.total_cost_price - sumExpenses st b.id
                 created_at := b.created_at }
        else none)

/-- One row of the outstanding-invoices report (outstandingInvoiceSchema). -/
structure OutstandingInvoiceRow where
  booking_id : Nat
  booking_number : String
  customer_name : String
  total_amount : Rat
  paid_amount : Rat
  outstanding_amount : Rat
  created_at : Nat
deriving DecidableEq, BEq

/-- getOutstandingInvoices (reports.ts): bookings whose payment_status is
pending, inner-joined with customers, left-joined and grouped with
payments, ordered by created_at descending. outstanding_amount is
totalAmount - paidAmount with no flooring. -/
def getOutstandingInvoices (st : DB) : List OutstandingInvoiceRow :=
  sortDescBy (fun r => r.created_at)
    (st.bookings.filterMap fun b =>
      (findCustomer st b.customer_id).bind fun c =>
        if b.payment_status = PaymentStatus.pending then
          some { booking_id := b.id
                 booking_number := b.booking_number
                 customer_name := c.name
                 total_amount := b.total_selling_price
                 paid_amount := paidTotal st b.id
                 outstanding_amount := b.total_selling_price - paidTotal st b.id
                 created_at := b.created_at }
        else none)

/-! Concrete fixtures used to evaluate the handlers at explicit inputs. -/

/-- A state with one customer, one user and one hotel priced at cost 100
with markup percentage 20. -/
def stW1 : DB :=
  { customers := [{ id := 1, name := "Alice" }]
    users := [{ id := 1 }]
    hotels := [{ id := 1, cost_price := 100, selling_price_percentage := 20 }] }

/-- A request for one hotel line: hotel 1, one room, two nights. -/
def inpW1 : CreateBookingInput :=
  { customer_id := 1
    hotel_bookings := [{ hotel_id := 1
                         room_type := RoomType.single
                         meal_plan := MealPlan.no_meal
                         check_in_date := 10
                         check_out_date := 12
                         number_of_rooms := 1 }]
    services := [] }

/-- The booking row createBooking stW1 inpW1 1 2 1000 inserts. -/
def bW1 : BookingRow :=
  { id := 2
    customer_id := 1
    booking_number := "BK1000"
    total_cost_price := 100
    total_selling_price := 120
    status := BookingStatus.draft
    payment_status := PaymentStatus.pending
    created_by := 1
    created_at := 1000
    updated_at := 1000 }

/-- The hotel detail row createBooking stW1 inpW1 1 2 1000 inserts. -/
def dW1 : HotelBookingDetailRow :=
  { booking_id := 2
    hotel_id := 1
    room_type := RoomType.single
    meal_plan := MealPlan.no_meal
    check_in_date := 10
    check_out_date := 12
    number_of_rooms := 1
    cost_price := 100
    selling_price := 120 }

/-- The insert sequence of createBooking stW1 inpW1 1 2 1000. -/
def opsW1 : List DbOp :=
  [DbOp.insertBooking bW1, DbOp.insertHotelDetail dW1]

/-- A createBooking request with zero line items. -/
def inpEmpty : CreateBookingInput :=
  { customer_id := 1, hotel_bookings := [], services := [] }

/-- A request whose first hotel line has check-out equal to check-in and
whose second hotel line references hotel 99, which does not exist in
stW1. -/
def inpC2 : CreateBookingInput :=
  { customer_id := 1
    hotel_bookings := [{ hotel_id := 1
                         room_type := RoomType.single
                         meal_plan := MealPlan.no_meal
                         check_in_date := 5
                         check_out_date := 5
                         number_of_rooms := 1 },
                       { hotel_id := 99
                         room_type := RoomType.double
                         meal_plan := MealPlan.breakfast
                         check_in_date := 5
                         check_out_date := 6
                         number_of_rooms := 2 }]
    services := [] }

/-- A state with one pending booking of selling price 100 and one payment
of 150 SAR against it: an overpaid booking that is still pending, since no
handler recomputes payment_status. -/
def stC4 : DB :=
  { customers := [{ id := 1, name := "Alice" }]
    users := [{ id := 1 }]
    bookings := [{ id := 1
                   customer_id := 1
                   booking_number := "BK1"
                   total_cost_price := 80
                   total_selling_price := 100
                   status := BookingStatus.draft
                   payment_status := PaymentStatus.pending
                   created_by := 1
                   created_at := 10
                   updated_at := 10 }]
    payments := [{ booking_id := 1
                   amount := 150
                   currency := Currency.SAR
                   amount_in_sar := 150
                   created_by := 1 }] }

/-- The row getOutstandingInvoices returns on stC4: outstanding is
negative. -/
def rowC4 : OutstandingInvoiceRow :=
  { booking_id := 1
    booking_number := "BK1"
    customer_name := "Alice"
    total_amount := 100
    paid_amount := 150
    outstanding_amount := -50
    created_at := 10 }

/-- stC4 extended with the exchange rate USD to SAR at 3.75. -/
def stC5 : DB :=
  { stC4 with rates := [{ from_currency := Currency.USD
                          to_currency := Currency.SAR
                          rate := 3.75 }] }

/-- stC4 extended with only the inverse pair SAR to USD: no rate exists
for the ordered pair (USD, SAR). -/
def stC5inv : DB :=
  { stC4 with rates := [{ from_currency := Currency.SAR
                          to_currency := Currency.USD
                          rate := 4 }] }

/-- A payment of 100 USD against booking 1. -/
def inpC5 : CreatePaymentInput :=
  { booking_id := 1, amount := 100, currency := Currency.USD }

/-! Helper lemmas about the embedding. -/

/-- Boolean equality on the derived Currency instance agrees with
propositional equality. -/
theorem currency_beq (a b : Currency) : (a == b) = decide (a = b) := by
  cases a <;> cases b <;> rfl

/-- Membership is preserved by the descending insertion step. -/
theorem mem_insertDescBy (key : α → Nat) (a x : α) (l : List α) :
    x ∈ insertDescBy key a l ↔ x = a ∨ x ∈ l := by
  induction l with
  | nil => simp [insertDescBy]
  | cons b t ih =>
    simp only [insertDescBy]
    split
    · simp [List.mem_cons]
    · simp only [List.mem_cons, ih]
      tauto

/-- Membership is preserved by the descending sort. -/
theorem mem_sortDescBy (key : α → Nat) (x : α) (l : List α) :
    x ∈ sortDescBy key l ↔ x ∈ l := by
  induction l with
  | nil => simp [sortDescBy]
  | cons a t ih => simp [sortDescBy, mem_insertDescBy, ih, List.mem_cons]

/-- Inserting into a descending list keeps it descending. -/
theorem pairwise_insertDescBy (key : α → Nat) (a : α) (l : List α)
    (h : l.Pairwise (fun x y => key y ≤ key x)) :
    (insertDescBy key a l).Pairwise (fun x y => key y ≤ key x) := by
  induction l with
  | nil => simp [insertDescBy]
  | cons b t ih =>
    rcases List.pairwise_cons.mp h with ⟨hb, ht⟩
    simp only [insertDescBy]
    split
    · refine List.pairwise_cons.mpr ⟨?_, h⟩
      intro y hy
      rcases List.mem_cons.mp hy with rfl | hy
      · assumption
      · exact le_trans (hb y hy) (by assumption)
    · refine List.pairwise_cons.mpr ⟨?_, ih ht⟩
      intro y hy
      rcases (mem_insertDescBy key a y t).mp hy with rfl | hy
      · omega
      · exact hb y hy

/-- The descending sort is descending in its key. -/
theorem pairwise_sortDescBy (key : α → Nat) (l : List α) :
    (sortDescBy key l).Pairwise (fun x y => key y ≤ key x) := by
  induction l with
  | nil => simp [sortDescBy]
  | cons a t ih => exact pairwise_insertDescBy key a _ ih

/-- The hotel totals loop computes the sums of the cost and selling fields
of the hotel detail rows the insert loop later writes: both loops re-fetch
the hotel and use the same formulas, and both skip a missing hotel. -/
theorem foldl_hotelStep (st : DB) (bid : Nat) (lines : List HotelBookingRequest)
    (acc : Rat × Rat) :
    lines.foldl (hotelStep st) acc
      = (acc.1 + ((hotelDetailRows st bid lines).map (fun d => d.cost_price)).sum,
         acc.2 + ((hotelDetailRows st bid lines).map (fun d => d.selling_price)).sum) := by
  induction lines generalizing acc with
  | nil => simp [hotelDetailRows]
  | cons hb t ih =>
    simp only [List.foldl_cons, hotelDetailRows, List.filterMap_cons]
    cases hfind : findHotel st hb.hotel_id with
    | none => simp [hotelStep, hfind, ih, hotelDetailRows]
    | some hot =>
      simp [hotelStep, hfind, ih, hotelDetailRows, hotelDetailRow, add_assoc]

/-- The service totals loop computes the sums of the cost and selling
fields of the service detail rows the insert loop later writes. -/
theorem foldl_serviceStep (st : DB) (bid : Nat) (lines : List ServiceRequest)
    (acc : Rat × Rat) :
    lines.foldl (serviceStep st) acc
      = (acc.1 + ((serviceDetailRows st bid lines).map (fun d => d.cost_price)).sum,
         acc.2 + ((serviceDetailRows st bid lines).map (fun d => d.selling_price)).sum) := by
  induction lines generalizing acc with
  | nil => simp [serviceDetailRows]
  | cons sb t ih =>
    simp only [List.foldl_cons, serviceDetailRows, List.filterMap_cons]
    cases hfind : findService st sb.service_id with
    | none => simp [serviceStep, hfind, ih, serviceDetailRows]
    | some sv =>
      simp [serviceStep, hfind, ih, serviceDetailRows, serviceDetailRow, add_assoc]

/-- A successful createBooking call performs exactly the insert sequence
buildOps. -/
theorem createBookingOps_ok_eq (st : DB) (input : CreateBookingInput)
    (userId newId now : Nat) (ops : List DbOp)
    (h : createBookingOps st input userId newId now = Except.ok ops) :
    ops = buildOps st input userId newId now := by
  unfold createBookingOps at h
  repeat' split at h
  all_goals simp_all

/-- Cost contribution of one insert: the cost_price of a line-item row, 0
for the booking row itself. -/
def opCost : DbOp → Rat
  | DbOp.insertBooking _ => 0
  | DbOp.insertHotelDetail d => d.cost_price
  | DbOp.insertServiceDetail d => d.cost_price

/-- Selling-price contribution of one insert. -/
def opSelling : DbOp → Rat
  | DbOp.insertBooking _ => 0
  | DbOp.insertHotelDetail d => d.selling_price
  | DbOp.insertServiceDetail d => d.selling_price

/-- Concrete evaluation: createBooking on stW1 and inpW1 produces exactly
the booking insert and the hotel detail insert of opsW1. -/
theorem opsW1_eq : createBookingOps stW1 inpW1 1 2 1000 = Except.ok opsW1 := by
  have hbk : "BK" ++ toString 1000 = "BK1000" := by decide
  norm_num [createBookingOps, findCustomer, findUser, findHotel, stW1, inpW1, buildOps,
    newBookingRow, bookingTotals, hotelStep, hotelLineCost, hotelLineSelling,
    hotelDetailRows, serviceDetailRows, hotelDetailRow, opsW1, bW1, dW1, List.find?,
    List.filterMap_cons, hbk]

/-- C1: every hotel line item priced by createBooking is persisted with
cost_price = hotel.cost_price * number_of_rooms and selling_price =
cost_price * (1 + selling_price_percentage / 100) — the nights between
check-in and check-out never enter the formula — every service line item
with the analogous formulas, and the booking row is persisted with
total_cost_price and total_selling_price equal to the sums of the cost and
selling prices of the persisted line items. -/
theorem createBooking_line_pricing (st : DB) (input : CreateBookingInput)
    (userId newId now : Nat) (ops : List DbOp)
    (h : createBookingOps st input userId newId now = Except.ok ops) :
    (∀ d, DbOp.insertHotelDetail d ∈ ops →
        ∃ hot, findHotel st d.hotel_id = some hot
          ∧ d.cost_price = hot.cost_price * (d.number_of_rooms : Rat)
          ∧ d.selling_price = d.cost_price * (1 + hot.selling_price_percentage / 100))
    ∧ (∀ sd, DbOp.insertServiceDetail sd ∈ ops →
        ∃ sv, findService st sd.service_id = some sv
          ∧ sd.cost_price = sv.cost_price * (sd.quantity : Rat)
          ∧ sd.selling_price = sd.cost_price * (1 + sv.selling_price_percentage / 100))
    ∧ (∀ b, DbOp.insertBooking b ∈ ops →
        b.total_cost_price = (ops.map opCost).sum
          ∧ b.total_selling_price = (ops.map opSelling).sum) := by
  have hops := createBookingOps_ok_eq st input userId newId now ops h
  subst hops
  refine ⟨?_, ?_, ?_⟩
  · intro d hd
    simp only [buildOps, List.mem_cons, List.mem_append, List.mem_map] at hd
    rcases hd with hd | ⟨a, ha, hda⟩ | ⟨a, ha, hda⟩
    · exact absurd hd (by simp)
    · cases hda
      rcases List.mem_filterMap.mp ha with ⟨hb, hmem, hrow⟩
      cases hfind : findHotel st hb.hotel_id with
      | none => rw [hfind] at hrow; cases hrow
      | some hot =>
        rw [hfind] at hrow
        cases hrow
        refine ⟨hot, ?_, ?_, ?_⟩ <;>
          simp [hotelDetailRow, hotelLineCost, hotelLineSelling, hfind]
    · cases hda
  · intro sd hsd
    simp only [buildOps, List.mem_cons, List.mem_append, List.mem_map] at hsd
    rcases hsd with hsd | ⟨a, ha, hda⟩ | ⟨a, ha, hda⟩
    · exact absurd hsd (by simp)
    · cases hda
    · cases hda
      rcases List.mem_filterMap.mp ha with ⟨sb, hmem, hrow⟩
      cases hfind : findService st sb.service_id with
      | none => rw [hfind] at hrow; cases hrow
      | some sv =>
        rw [hfind] at hrow
        cases hrow
        refine ⟨sv, ?_, ?_, ?_⟩ <;>
          simp [serviceDetailRow, serviceLineCost, serviceLineSelling, hfind]
  · intro b hbmem
    have hsumc : ((buildOps st input userId newId now).map opCost).sum
        = ((hotelDetailRows st newId input.hotel_bookings).map (fun d => d.cost_price)).sum
          + ((serviceDetailRows st newId input.services).map (fun d => d.cost_price)).sum := by
      simp [buildOps, opCost, List.map_append, List.map_map, Function.comp_def]
    have hsums : ((buildOps st input userId newId now).map opSelling).sum
        = ((hotelDetailRows st newId input.hotel_bookings).map (fun d => d.selling_price)).sum
          + ((serviceDetailRows st newId input.services).map (fun d => d.selling_price)).sum := by
      simp [buildOps, opSelling, List.map_append, List.map_map, Function.comp_def]
    have htot : bookingTotals st input
        = (((hotelDetailRows st newId input.hotel_bookings).map (fun d => d.cost_price)).sum
             + ((serviceDetailRows st newId input.services).map (fun d => d.cost_price)).sum,
           ((hotelDetailRows st newId input.hotel_bookings).map (fun d => d.selling_price)).sum
             + ((serviceDetailRows st newId input.services).map (fun d => d.selling_price)).sum) := by
      unfold bookingTotals
      rw [foldl_hotelStep st newId, foldl_serviceStep st newId]
      simp
    simp only [buildOps, List.mem_cons, List.mem_append, List.mem_map] at hbmem
    rcases hbmem with hbmem | ⟨a, ha, hda⟩ | ⟨a, ha, hda⟩
    · cases hbmem
      constructor
      · rw [hsumc]
        simp [newBookingRow, htot]
      · rw [hsums]
        simp [newBookingRow, htot]
    · cases hda
    · cases hda

/-- C1 witness: on the one-customer, one-hotel state stW1 (hotel cost 100,
markup 20 percent) and the single-line request inpW1 (one room), the
persisted line has cost 100 and selling 120, and the booking totals are
100 and 120. -/
theorem createBooking_line_pricing_witness :
    ((∀ d, DbOp.insertHotelDetail d ∈ opsW1 →
        ∃ hot, findHotel stW1 d.hotel_id = some hot
          ∧ d.cost_price = hot.cost_price * (d.number_of_rooms : Rat)
          ∧ d.selling_price = d.cost_price * (1 + hot.selling_price_percentage / 100))
    ∧ (∀ sd, DbOp.insertServiceDetail sd ∈ opsW1 →
        ∃ sv, findService stW1 sd.service_id = some sv
          ∧ sd.cost_price = sv.cost_price * (sd.quantity : Rat)
          ∧ sd.selling_price = sd.cost_price * (1 + sv.selling_price_percentage / 100))
    ∧ (∀ b, DbOp.insertBooking b ∈ opsW1 →
        b.total_cost_price = (opsW1.map opCost).sum
          ∧ b.total_selling_price = (opsW1.map opSelling).sum))
    ∧ dW1.cost_price = 100 ∧ dW1.selling_price = 120
    ∧ bW1.total_cost_price = 100 ∧ bW1.total_selling_price = 120 :=
  ⟨createBooking_line_pricing stW1 inpW1 1 2 1000 opsW1 opsW1_eq, rfl, rfl, rfl, rfl⟩

/-- C3: createBooking is not atomic. Its insert sequence on stW1 and inpW1
is the booking insert followed by the hotel detail insert, each a separate
database call with no transaction; stopping after the first insert leaves
the booking row visible with no line items. -/
theorem createBooking_not_atomic :
    createBookingOps stW1 inpW1 1 2 1000 = Except.ok opsW1
    ∧ opsW1.take 1 = [DbOp.insertBooking bW1]
    ∧ (applyOps stW1 (opsW1.take 1)).bookings = [bW1]
    ∧ (applyOps stW1 (opsW1.take 1)).hotelDetails = [] :=
  ⟨opsW1_eq, rfl, rfl, rfl⟩

/-- C7: on stW1, whose customer 1 and user 1 exist, a request with zero
line items does not succeed: the hotel existence check reads the first
element of the empty hotel list, the lookup finds no row, and createBooking
fails with the hotel-not-found error. -/
theorem createBooking_empty_lines_fails :
    findCustomer stW1 inpEmpty.customer_id = some { id := 1, name := "Alice" }
    ∧ findUser stW1 1 = some { id := 1 }
    ∧ inpEmpty.hotel_bookings = [] ∧ inpEmpty.services = []
    ∧ createBooking stW1 inpEmpty 1 2 1000 = Except.error CreateBookingError.hotelNotFound :=
  ⟨rfl, rfl, rfl, rfl, rfl⟩

/-- C2 (amended): createBooking fails, before any insert, exactly when the
customer is missing, or the creator user is missing, or the first id of the
hotel list (none at all for an empty list) resolves to no hotel, or the
services list is nonempty and its first id resolves to no service. The
handler existence-checks no hotel or service beyond the first, performs no
check-in/check-out ordering check and no count-positivity check. -/
theorem createBooking_validation_iff (st : DB) (input : CreateBookingInput)
    (userId newId now : Nat) :
    (createBookingOps st input userId newId now).isOk = false ↔
      (findCustomer st input.customer_id = none
       ∨ findUser st userId = none
       ∨ (input.hotel_bookings.map fun hb => hb.hotel_id).head?.bind (findHotel st) = none
       ∨ (input.services ≠ [] ∧
          (input.services.map fun sb => sb.service_id).head?.bind (findService st) = none)) := by
  unfold createBookingOps
  cases hc : findCustomer st input.customer_id with
  | none => simp [hc, Except.isOk, Except.toBool]
  | some c =>
    cases hu : findUser st userId with
    | none => simp [hc, hu, Except.isOk, Except.toBool]
    | some u =>
      cases hh : (input.hotel_bookings.map fun hb => hb.hotel_id).head?.bind (findHotel st) with
      | none => simp [hc, hu, hh, Except.isOk, Except.toBool]
      | some hot =>
        cases hs : input.services with
        | nil => simp [hc, hu, hh, hs, Except.isOk, Except.toBool]
        | cons sb t =>
          cases hsv : findService st sb.service_id with
          | none => simp [hc, hu, hh, hs, hsv, Except.isOk, Except.toBool]
          | some sv => simp [hc, hu, hh, hs, hsv, Except.isOk, Except.toBool]

/-- C2 counterexample: on stW1 the request inpC2 has a first hotel line
with check-out equal to check-in and a second hotel line referencing the
missing hotel 99, yet createBooking succeeds and persists the booking row
instead of failing. -/
theorem createBooking_validation_counterexample :
    (inpC2.hotel_bookings[0]?.map fun hb => (hb.check_in_date, hb.check_out_date)) = some (5, 5)
    ∧ (inpC2.hotel_bookings[1]?.map fun hb => hb.hotel_id) = some 99
    ∧ findHotel stW1 99 = none
    ∧ (createBooking stW1 inpC2 1 2 1000).isOk = true
    ∧ (createBooking stW1 inpC2 1 2 1000).map (fun s => s.bookings.length) = Except.ok 1 :=
  ⟨rfl, rfl, rfl, rfl, rfl⟩

/-- Concrete evaluation: the outstanding-invoices report on stC4 is the
single row rowC4. -/
theorem outstanding_stC4_eq : getOutstandingInvoices stC4 = [rowC4] := by
  norm_num [getOutstandingInvoices, stC4, rowC4, findCustomer, paidTotal, sortDescBy,
    insertDescBy, List.find?, List.filter]

/-- C4 counterexample: the overpaid pending booking of stC4 is reported
with outstanding_amount equal to -50, which is negative: the report does
not floor the subtraction at zero. -/
theorem outstanding_negative_counterexample :
    getOutstandingInvoices stC4 = [rowC4] ∧ rowC4.outstanding_amount < 0 :=
  ⟨outstanding_stC4_eq, by norm_num [rowC4]⟩

/-- C4 (amended): every row of getOutstandingInvoices reports
outstanding_amount = total_selling_price - the sum of that booking's
payments in SAR, with no flooring at zero, for a booking whose
payment_status is pending. -/
theorem outstanding_unfloored (st : DB) (r : OutstandingInvoiceRow)
    (hr : r ∈ getOutstandingInvoices st) :
    r.outstanding_amount = r.total_amount - r.paid_amount
    ∧ r.paid_amount = paidTotal st r.booking_id
    ∧ ∃ b, b ∈ st.bookings ∧ b.id = r.booking_id
        ∧ b.payment_status = PaymentStatus.pending
        ∧ r.total_amount = b.total_selling_price := by
  unfold getOutstandingInvoices at hr
  rw [mem_sortDescBy] at hr
  rcases List.mem_filterMap.mp hr with ⟨b, hb, hsome⟩
  cases hcust : findCustomer st b.customer_id with
  | none => rw [hcust] at hsome; cases hsome
  | some c =>
    rw [hcust] at hsome
    simp only [Option.some_bind] at hsome
    split at hsome
    · injection hsome with hsome
      subst hsome
      exact ⟨rfl, rfl, b, hb, rfl, by assumption, rfl⟩
    · cases hsome

/-- C4 witness: the amended relation evaluated on the concrete state stC4
at its single report row rowC4. -/
theorem outstanding_unfloored_witness :
    rowC4.outstanding_amount = rowC4.total_amount - rowC4.paid_amount
    ∧ rowC4.paid_amount = paidTotal stC4 rowC4.booking_id
    ∧ ∃ b, b ∈ stC4.bookings ∧ b.id = rowC4.booking_id
        ∧ b.payment_status = PaymentStatus.pending
        ∧ rowC4.total_amount = b.total_selling_price :=
  outstanding_unfloored stC4 rowC4
    (by rw [outstanding_stC4_eq]; exact List.mem_singleton.mpr rfl)

/-- C5: conversion in createPayment is the identity when the payment
currency is the base currency SAR, whatever rate rows exist; when the
currency differs and no rate row exists for the exact ordered pair
(currency, SAR) the call fails with rateNotFound naming that pair, never
consulting the inverse pair; and when the pair is found the stored
amount_in_sar is amount times the rate. -/
theorem createPayment_conversion_spec (st : DB) (input : CreatePaymentInput) (userId : Nat)
    (hbk : (findBooking st input.booking_id).isSome = true) :
    (input.currency = Currency.SAR →
        ∃ st2 p, createPayment st input userId = Except.ok (st2, p)
          ∧ p.amount_in_sar = input.amount)
    ∧ (input.currency ≠ Currency.SAR → findRate st input.currency Currency.SAR = none →
        createPayment st input userId
          = Except.error (PaymentError.rateNotFound input.currency Currency.SAR))
    ∧ (∀ rrow, input.currency ≠ Currency.SAR →
        findRate st input.currency Currency.SAR = some rrow →
        ∃ st2 p, createPayment st input userId = Except.ok (st2, p)
          ∧ p.amount_in_sar = input.amount * rrow.rate) := by
  rcases Option.isSome_iff_exists.mp hbk with ⟨b, hfind⟩
  refine ⟨?_, ?_, ?_⟩
  · intro hsar
    unfold createPayment convertToSar
    rw [hfind, if_pos hsar]
    exact ⟨_, _, rfl, rfl⟩
  · intro hne hrate
    unfold createPayment convertToSar
    rw [hfind, if_neg hne, hrate]
  · intro rrow hne hrate
    unfold createPayment convertToSar
    rw [hfind, if_neg hne, hrate]
    exact ⟨_, _, rfl, rfl⟩

/-- The exchange-rate row of stC5. -/
def rateW : ExchangeRateRow :=
  { from_currency := Currency.USD, to_currency := Currency.SAR, rate := 3.75 }

/-- A payment of 77 SAR against booking 1. -/
def inpC5sar : CreatePaymentInput :=
  { booking_id := 1, amount := 77, currency := Currency.SAR }

/-- C5 witness: 100 USD at the rate 3.75 for the pair (USD, SAR) is stored
as 375 SAR; on the state holding only the inverse pair (SAR, USD) the same
payment fails with rateNotFound USD SAR; and a payment already in SAR is
stored unchanged. -/
theorem createPayment_conversion_witness :
    (∃ st2 p, createPayment stC5 inpC5 1 = Except.ok (st2, p)
       ∧ p.amount_in_sar = inpC5.amount * rateW.rate)
    ∧ inpC5.amount * rateW.rate = 375
    ∧ createPayment stC5inv inpC5 1
        = Except.error (PaymentError.rateNotFound Currency.USD Currency.SAR)
    ∧ (∃ st2 p, createPayment stC5 inpC5sar 1 = Except.ok (st2, p)
       ∧ p.amount_in_sar = inpC5sar.amount) :=
  ⟨(createPayment_conversion_spec stC5 inpC5 1 rfl).2.2 rateW (by decide) rfl,
   by norm_num [inpC5, rateW],
   (createPayment_conversion_spec stC5inv inpC5 1 rfl).2.1 (by decide) rfl,
   (createPayment_conversion_spec stC5 inpC5sar 1 rfl).1 rfl⟩

/-- C6: every row of getProfitLossReport reports profit = selling - cost -
the sum of that booking's expenses, total_expenses is exactly that sum (0
when the booking has no expense rows), every row lies in the optional
inclusive creation-date window, and the rows are ordered by creation time,
most recent first. -/
theorem getProfitLossReport_spec (st : DB) (startDate endDate : Option Nat) :
    (∀ r, r ∈ getProfitLossReport st startDate endDate →
        r.profit = r.total_selling_price - r.total_cost_price - r.total_expenses
        ∧ r.total_expenses = sumExpenses st r.booking_id
        ∧ (st.expenses.filter (fun e => e.booking_id == r.booking_id) = [] →
            r.total_expenses = 0)
        ∧ inWindow startDate endDate r.created_at = true)
    ∧ (getProfitLossReport st startDate endDate).Pairwise
        (fun a b => b.created_at ≤ a.created_at) := by
  constructor
  · intro r hr
    unfold getProfitLossReport at hr
    rw [mem_sortDescBy] at hr
    rcases List.mem_filterMap.mp hr with ⟨b, hb, hsome⟩
    cases hcust : findCustomer st b.customer_id with
    | none => rw [hcust] at hsome; cases hsome
    | some c =>
      rw [hcust] at hsome
      simp only [Option.some_bind] at hsome
      split at hsome
      · injection hsome with hsome
        subst hsome
        refine ⟨rfl, rfl, ?_, by assumption⟩
        intro hfilt
        simp [sumExpenses, hfilt]
      · cases hsome
  · unfold getProfitLossReport
    exact pairwise_sortDescBy _ _

/-- C8: updateBookingStatus rewrites only the status and updated_at columns
of the matching booking row — id, customer, booking number, both totals,
payment_status, creator and creation time are unchanged on every row — and
neither createPayment nor createExpense writes the bookings table at all,
so in particular createPayment leaves payment_status exactly as it was. -/
theorem booking_totals_frame (st : DB) :
    (∀ id status now st2, updateBookingStatus st id status now = Except.ok st2 →
        st2.bookings.map (fun b => (b.id, b.customer_id, b.booking_number,
            b.total_cost_price, b.total_selling_price, b.payment_status,
            b.created_by, b.created_at))
          = st.bookings.map (fun b => (b.id, b.customer_id, b.booking_number,
              b.total_cost_price, b.total_selling_price, b.payment_status,
              b.created_by, b.created_at)))
    ∧ (∀ input userId st2 p, createPayment st input userId = Except.ok (st2, p) →
        st2.bookings = st.bookings)
    ∧ (∀ input userId st2 e, createExpense st input userId = Except.ok (st2, e) →
        st2.bookings = st.bookings) := by
  refine ⟨?_, ?_, ?_⟩
  · intro id status now st2 h
    unfold updateBookingStatus at h
    split at h
    · injection h with h2
      subst h2
      simp only [List.map_map]
      apply List.map_congr_left
      intro b _
      by_cases hid : (b.id == id) = true <;> simp [Function.comp, hid]
    · cases h
  · intro input userId st2 p h
    unfold createPayment at h
    cases hfind : findBooking st input.booking_id with
    | none => rw [hfind] at h; cases h
    | some b0 =>
      rw [hfind] at h
      cases hconv : convertToSar st input.amount input.currency with
      | error e => rw [hconv] at h; cases h
      | ok a =>
        rw [hconv] at h
        injection h with h2
        have h3 : st2 = { st with payments := st.payments ++ [{
            booking_id := input.booking_id, amount := input.amount,
            currency := input.currency, amount_in_sar := a,
            notes := input.notes, created_by := userId }] } :=
          (congrArg Prod.fst h2).symm
        rw [h3]
  · intro input userId st2 e h
    unfold createExpense at h
    split at h
    · injection h with h2
      have h3 : st2 = { st with expenses := st.expenses ++ [{
          booking_id := input.booking_id, expense_name := input.expense_name,
          amount := input.amount, created_by := userId }] } :=
        (congrArg Prod.fst h2).symm
      rw [h3]
    · cases h

/-- The hotel totals loop keeps cost below selling when every hotel row
has nonnegative cost and markup and every line has a nonnegative room
count. -/
theorem hotelFold_le (st : DB)
    (hH : ∀ hot, hot ∈ st.hotels → 0 ≤ hot.cost_price ∧ 0 ≤ hot.selling_price_percentage)
    (lines : List HotelBookingRequest) :
    ∀ acc : Rat × Rat, (∀ hb, hb ∈ lines → 0 ≤ hb.number_of_rooms) → acc.1 ≤ acc.2 →
      (lines.foldl (hotelStep st) acc).1 ≤ (lines.foldl (hotelStep st) acc).2 := by
  induction lines with
  | nil => intro acc _ hacc; simpa using hacc
  | cons hb t ih =>
    intro acc hR hacc
    simp only [List.foldl_cons]
    refine ih _ (fun hb2 h2 => hR hb2 (List.mem_cons_of_mem _ h2)) ?_
    cases hfind : findHotel st hb.hotel_id with
    | none => simpa [hotelStep, hfind] using hacc
    | some hot =>
      have hmem : hot ∈ st.hotels := List.mem_of_find?_eq_some hfind
      obtain ⟨hc, hp⟩ := hH hot hmem
      have hr0 : (0 : Rat) ≤ (hb.number_of_rooms : Rat) := by
        exact_mod_cast hR hb (List.mem_cons_self _ _)
      have hcost : 0 ≤ hotelLineCost hot hb := by
        unfold hotelLineCost
        exact mul_nonneg hc hr0
      have hsell : hotelLineCost hot hb ≤ hotelLineSelling hot hb := by
        have h1 : 0 ≤ hotelLineCost hot hb * (hot.selling_price_percentage / 100) :=
          mul_nonneg hcost (div_nonneg hp (by norm_num))
        have h2 : hotelLineSelling hot hb
            = hotelLineCost hot hb
              + hotelLineCost hot hb * (hot.selling_price_percentage / 100) := by
          unfold hotelLineSelling
          ring
        linarith
      simp only [hotelStep, hfind]
      exact add_le_add hacc hsell

/-- The service totals loop keeps cost below selling under the analogous
nonnegativity of service rows and quantities. -/
theorem serviceFold_le (st : DB)
    (hS : ∀ sv, sv ∈ st.services → 0 ≤ sv.cost_price ∧ 0 ≤ sv.selling_price_percentage)
    (lines : List ServiceRequest) :
    ∀ acc : Rat × Rat, (∀ sb, sb ∈ lines → 0 ≤ sb.quantity) → acc.1 ≤ acc.2 →
      (lines.foldl (serviceStep st) acc).1 ≤ (lines.foldl (serviceStep st) acc).2 := by
  induction lines with
  | nil => intro acc _ hacc; simpa using hacc
  | cons sb t ih =>
    intro acc hQ hacc
    simp only [List.foldl_cons]
    refine ih _ (fun sb2 h2 => hQ sb2 (List.mem_cons_of_mem _ h2)) ?_
    cases hfind : findService st sb.service_id with
    | none => simpa [serviceStep, hfind] using hacc
    | some sv =>
      have hmem : sv ∈ st.services := List.mem_of_find?_eq_some hfind
      obtain ⟨hc, hp⟩ := hS sv hmem
      have hq0 : (0 : Rat) ≤ (sb.quantity : Rat) := by
        exact_mod_cast hQ sb (List.mem_cons_self _ _)
      have hcost : 0 ≤ serviceLineCost sv sb := by
        unfold serviceLineCost
        exact mul_nonneg hc hq0
      have hsell : serviceLineCost sv sb ≤ serviceLineSelling sv sb := by
        have h1 : 0 ≤ serviceLineCost sv sb * (sv.selling_price_percentage / 100) :=
          mul_nonneg hcost (div_nonneg hp (by norm_num))
        have h2 : serviceLineSelling sv sb
            = serviceLineCost sv sb
              + serviceLineCost sv sb * (sv.selling_price_percentage / 100) := by
          unfold serviceLineSelling
          ring
        linarith
      simp only [serviceStep, hfind]
      exact add_le_add hacc hsell

/-- C10: every booking successfully created by createBooking is persisted
with total_selling_price at least total_cost_price whenever the master
rows have nonnegative cost prices and markup percentages and the request
lines have nonnegative counts and quantities — the cost and count bounds
are the invariants the input schemas enforce (nonnegative cost_price,
positive integer counts). -/
theorem booking_margin (st : DB) (input : CreateBookingInput)
    (userId newId now : Nat) (ops : List DbOp)
    (h : createBookingOps st input userId newId now = Except.ok ops)
    (hH : ∀ hot, hot ∈ st.hotels → 0 ≤ hot.cost_price ∧ 0 ≤ hot.selling_price_percentage)
    (hS : ∀ sv, sv ∈ st.services → 0 ≤ sv.cost_price ∧ 0 ≤ sv.selling_price_percentage)
    (hR : ∀ hb, hb ∈ input.hotel_bookings → 0 ≤ hb.number_of_rooms)
    (hQ : ∀ sb, sb ∈ input.services → 0 ≤ sb.quantity)
    (b : BookingRow) (hbmem : DbOp.insertBooking b ∈ ops) :
    b.total_cost_price ≤ b.total_selling_price := by
  have hops := createBookingOps_ok_eq st input userId newId now ops h
  subst hops
  simp only [buildOps, List.mem_cons, List.mem_append, List.mem_map] at hbmem
  rcases hbmem with hbmem | ⟨a, ha, hda⟩ | ⟨a, ha, hda⟩
  · cases hbmem
    show (bookingTotals st input).1 ≤ (bookingTotals st input).2
    unfold bookingTotals
    exact serviceFold_le st hS input.services _ hQ
      (hotelFold_le st hH input.hotel_bookings (0, 0) hR (le_refl 0))
  · cases hda
  · cases hda

/-- The hotel rows of stW1 have nonnegative cost and markup. -/
theorem stW1_hotels_ok :
    ∀ hot, hot ∈ stW1.hotels → 0 ≤ hot.cost_price ∧ 0 ≤ hot.selling_price_percentage := by
  intro hot h
  simp [stW1] at h
  subst h
  norm_num

/-- stW1 has no service rows. -/
theorem stW1_services_ok :
    ∀ sv, sv ∈ stW1.services → 0 ≤ sv.cost_price ∧ 0 ≤ sv.selling_price_percentage := by
  intro sv h
  simp [stW1] at h

/-- The single line of inpW1 has a nonnegative room count. -/
theorem inpW1_rooms_ok : ∀ hb, hb ∈ inpW1.hotel_bookings → 0 ≤ hb.number_of_rooms := by
  intro hb h
  simp [inpW1] at h
  subst h
  norm_num

/-- inpW1 has no service lines. -/
theorem inpW1_qty_ok : ∀ sb, sb ∈ inpW1.services → 0 ≤ sb.quantity := by
  intro sb h
  simp [inpW1] at h

/-- C10 witness: the booking persisted for stW1 and inpW1 (cost 100,
markup 20 percent) has total cost 100 below total selling 120. -/
theorem booking_margin_witness : bW1.total_cost_price ≤ bW1.total_selling_price :=
  booking_margin stW1 inpW1 1 2 1000 opsW1 opsW1_eq stW1_hotels_ok stW1_services_ok
    inpW1_rooms_ok inpW1_qty_ok bW1 (by simp [opsW1])

end TravelAgency
